import Mathlib

/-!
A shallow embedding of the request-validation, option-resolution,
operation-pipeline, response-header and shutdown logic of pilbox's
`app.py`, together with theorems checking the design document against it.

Conventions: query arguments are modelled as `String → Option String`
(`none` = argument absent, `some ""` = argument supplied empty; values are
taken as already stripped, mirroring `get_argument`'s default `strip=True`);
Python truthiness of an optional string is `truthy`; the tornado `settings`
dictionary is split into typed fields plus an `opts` map used for
per-option default lookups; external collaborators (`pilbox.image`,
`pilbox.signature`, `urllib.parse`) are parameters gathered in `Externals`.
-/

/-- Python truthiness of an optional string: present and non-empty. -/
def truthy : Option String → Bool
  | none => false
  | some v => v != ""

/-- Worker for `pySplit`, walking the characters and collecting the current
piece in reverse. -/
def splitAux (sep : Char) : List Char → List Char → List String
  | [], cur => [⟨cur.reverse⟩]
  | c :: rest, cur =>
    if c = sep then ⟨cur.reverse⟩ :: splitAux sep rest []
    else splitAux sep rest (c :: cur)

/-- Python `str.split(sep)` for a one-character separator: the empty string
yields `[""]`, and empty pieces are kept. -/
def pySplit (s : String) (sep : Char) : List String := splitAux sep s.data []

/-- Python `str.startswith`. -/
def pyStartsWith (s p : String) : Bool := p.data.isPrefixOf s.data

/-- Python `str.lower` (ASCII, which covers the format names involved). -/
def pyToLower (s : String) : String := ⟨s.data.map Char.toLower⟩

/-- An incoming request: the query arguments (via `get_argument`, which
returns `None` when the argument is absent) and the raw query string of the
request URI (used by the signature check). -/
structure Request where
  args : String → Option String
  query : String

/-- The tornado application settings assembled in `PilboxApplication.__init__`.
Scalar and list-valued fields that the handler reads by fixed name are typed;
`opts` is the same dictionary viewed as a map for the `settings.get(k)`
lookups done by `_get_options`, `_get_operations` and `_set_headers`. -/
structure Settings where
  client_name : Option String
  client_key : Option String
  allowed_hosts : List String
  allowed_operations : List String
  max_operations : Nat
  max_resize_width : Int
  max_resize_height : Int
  implicit_base_url : Option String
  content_type_from_image : Bool
  opts : String → Option String

/-- The error taxonomy of `pilbox.errors`, with the message raised at the
point of detection. -/
inductive PilboxError where
  | UrlError (msg : String)
  | OperationError (msg : String)
  | SignatureError (msg : String)
  | ClientError (msg : String)
  | HostError (msg : String)
  | DimensionsError (msg : String)
  | FetchError
deriving DecidableEq

deriving instance DecidableEq for Except

/-- `ImageHandler.OPERATIONS`. -/
def OPERATIONS : List String := ["region", "resize", "rotate", "noop", "watermark"]

/-- `ImageHandler.FORWARD_HEADERS`. -/
def FORWARD_HEADERS : List String := ["Cache-Control", "Expires", "Last-Modified"]

/-- `ImageHandler._FORMAT_TO_MIME`, as a partial map (Python `dict.get`
returns `None` on a miss). -/
def FORMAT_TO_MIME : String → Option String
  | "gif" => some "image/gif"
  | "jpeg" => some "image/jpeg"
  | "jpg" => some "image/jpeg"
  | "png" => some "image/png"
  | "webp" => some "image/webp"
  | "tiff" => some "image/tiff"
  | _ => none

/-- `ImageHandler._get_operations`: the `op` argument, defaulting to the
`operation` setting when that is truthy and to `"resize"` otherwise, split
on commas (Python `str.split(",")`, so the empty string yields `[""]`). -/
def get_operations (req : Request) (s : Settings) : List String :=
  pySplit
    (match req.args "op" with
     | some v => v
     | none =>
       match s.opts "operation" with
       | some d => if d = "" then "resize" else d
       | none => "resize") ','

/-- The per-family (option key, query argument name) pairs, in the order the
option dictionaries are built in `_get_resize_options` and friends. -/
def resize_option_pairs : List (String × String) :=
  [("mode", "mode"), ("filter", "filter"), ("position", "pos"),
   ("background", "bg"), ("retain", "retain")]

def rotate_option_pairs : List (String × String) :=
  [("expand", "expand")]

def watermark_option_pairs : List (String × String) :=
  [("watermark_txt", "watermark_txt"), ("watermark_img", "watermark_img"),
   ("watermark_pos", "watermark_pos"), ("watermark_txt_size", "watermark_txt_size"),
   ("watermark_txt_color", "watermark_txt_color"),
   ("watermark_img_ratio", "watermark_img_ratio")]

def save_option_pairs : List (String × String) :=
  [("format", "fmt"), ("optimize", "opt"), ("quality", "q"),
   ("progressive", "prog"), ("background", "bg"), ("preserve_exif", "exif"),
   ("watermark_pos", "watermark_pos"), ("watermark_txt_size", "watermark_txt_size"),
   ("watermark_txt_color", "watermark_txt_color"),
   ("watermark_img_ratio", "watermark_img_ratio")]

/-- `ImageHandler._get_options`: each option key holds the request argument's
value; when the argument is absent (`None`), the value is replaced by
`settings.get(k, None)`. Note the source tests `v is None`, so a supplied
empty string is kept, and an absent default leaves the key bound to `None`
rather than removing it. -/
def get_options (req : Request) (s : Settings)
    (pairs : List (String × String)) : List (String × Option String) :=
  pairs.map (fun p => (p.1,
    match req.args p.2 with
    | some v => some v
    | none => s.opts p.1))

def get_resize_options (req : Request) (s : Settings) : List (String × Option String) :=
  get_options req s resize_option_pairs

def get_rotate_options (req : Request) (s : Settings) : List (String × Option String) :=
  get_options req s rotate_option_pairs

def get_watermark_options (req : Request) (s : Settings) : List (String × Option String) :=
  get_options req s watermark_option_pairs

def get_save_options (req : Request) (s : Settings) : List (String × Option String) :=
  get_options req s save_option_pairs

/-- The four operation families whose options `_get_options` resolves. -/
inductive OptionFamily where
  | resize
  | rotate
  | watermark
  | save
deriving DecidableEq

def option_pairs : OptionFamily → List (String × String)
  | .resize => resize_option_pairs
  | .rotate => rotate_option_pairs
  | .watermark => watermark_option_pairs
  | .save => save_option_pairs

def family_options (fam : OptionFamily) (req : Request) (s : Settings) :
    List (String × Option String) :=
  match fam with
  | .resize => get_resize_options req s
  | .rotate => get_rotate_options req s
  | .watermark => get_watermark_options req s
  | .save => get_save_options req s

/-- The option merge rule exactly as the design document words it: a
request-supplied NON-EMPTY value wins; an empty or absent argument falls
back to the `Settings` default. Written for comparison with `get_options`,
which is translated from the source. -/
def get_options_specversion (req : Request) (s : Settings)
    (pairs : List (String × String)) : List (String × Option String) :=
  pairs.map (fun p => (p.1,
    match req.args p.2 with
    | some v => if v = "" then s.opts p.1 else some v
    | none => s.opts p.1))

/-- Python `dict.update`: existing keys are overwritten in place, new keys
are appended in their own order. -/
def dictUpdate (base upd : List (String × Option String)) :
    List (String × Option String) :=
  base.map (fun p =>
    match upd.find? (fun q => q.1 == p.1) with
    | some q => q
    | none => p) ++
  upd.filter (fun q => (base.find? (fun p => p.1 == q.1)).isNone)

/-- The decoded image handle: the bytes it was decoded from and the trace of
transform invocations applied to it, in order, each with the argument list
(positional argument plus resolved options) it was invoked with. Pixel-level
behaviour belongs to the external codec and is not modelled. -/
structure ImageState where
  source : List Nat
  applied : List (String × List (String × Option String))
deriving DecidableEq

/-- External collaborators: `pilbox.signature.verify_signature`, the
validators of `pilbox.image.Image`, Python `int()`, `urllib.parse` hostname
extraction and joining, and the codec's report of the saved image's format
(`image.img.format` after `save`). -/
structure Externals where
  verify_signature : String → String → Bool
  validate_dimensions : Option String → Option String → Except PilboxError Unit
  validate_degree : Option String → Except PilboxError Unit
  validate_rectangle : Option String → Except PilboxError Unit
  validate_options : List (String × Option String) → Except PilboxError Unit
  parseInt : String → Int
  hostname : String → Option String
  urljoin : String → String → String
  img_format : ImageState → List (String × Option String) → Option String

/-- The transform invocation made by the `_process_response` loop body for a
given operation name: `_image_resize`, `_image_rotate`, `_image_region` or
`_image_watermark`, each recording its positional argument and resolved
options; any other name (including `noop`, which cannot reach the loop) falls
through the `elif` chain and is skipped. -/
def transformCall (req : Request) (s : Settings) (op : String) :
    Option (List (String × Option String)) :=
  if op = "resize" then
    some (("w", req.args "w") :: ("h", req.args "h") :: get_resize_options req s)
  else if op = "rotate" then
    some (("deg", req.args "deg") :: get_rotate_options req s)
  else if op = "region" then
    some [("rect", req.args "rect")]
  else if op = "watermark" then
    some (("watermark_pos", req.args "watermark_pos") :: get_watermark_options req s)
  else
    none

/-- One iteration of the `for operation in ops` loop of `_process_response`,
mutating the image handle in place. -/
def applyOperation (req : Request) (s : Settings) (op : String)
    (img : ImageState) : ImageState :=
  match transformCall req s op with
  | some call => ⟨img.source, img.applied ++ [(op, call)]⟩
  | none => img

/-- The whole `for operation in ops` loop of `_process_response`. -/
def runOps (req : Request) (s : Settings) : List String → ImageState → ImageState
  | [], img => img
  | op :: rest, img => runOps req s rest (applyOperation req s op img)

/-- The pipeline output: either the fetched bytes forwarded untouched, or the
image handle as encoded by `_image_save` with the resolved save options. -/
inductive Output where
  | raw (bytes : List Nat)
  | encoded (img : ImageState) (saveOpts : List (String × Option String))
deriving DecidableEq

/-- `ImageHandler._process_response`: when `noop` occurs anywhere in the
operation list, return the fetched buffer with no declared format; otherwise
decode once, run every operation in request order, save once and report the
saved image's format. -/
def process_response (ext : Externals) (req : Request) (s : Settings)
    (buffer : List Nat) : Output × Option String :=
  let ops := get_operations req s
  if "noop" ∈ ops then
    (.raw buffer, none)
  else
    let img := runOps req s ops ⟨buffer, []⟩
    let saveOpts := get_save_options req s
    (.encoded img saveOpts, ext.img_format img saveOpts)

/-- `ImageHandler._set_headers`: the outgoing content type (as an optional
value, `none` meaning no header is set by this method) and the forwarded
caching headers. The first branch requires the declared format itself to be
truthy in addition to the `fmt` argument, `format` setting or
`content_type_from_image` flag. -/
def set_headers (req : Request) (s : Settings)
    (headers : String → Option String) (file_format : Option String) :
    Option String × List (String × String) :=
  let ct :=
    if truthy file_format &&
        (truthy (req.args "fmt") || truthy (s.opts "format") ||
          s.content_type_from_image) then
      FORMAT_TO_MIME (pyToLower (file_format.getD ""))
    else
      headers "Content-Type"
  let fwd := FORWARD_HEADERS.filterMap (fun k =>
    match headers k with
    | some v => if v = "" then none else some (k, v)
    | none => none)
  (ct, fwd)

/-- `ImageHandler._validate_operation`: the parsed operations collapse into a
set; the set must be a subset of the allowed operations, and the SIZE OF THE
SET must not exceed `max_operations`. -/
def validate_operation (req : Request) (s : Settings) : Except PilboxError Unit :=
  let operations := (get_operations req s).dedup
  if ¬ (∀ o ∈ operations, o ∈ s.allowed_operations) then
    .error (.OperationError "Unsupported operation")
  else if operations.length > s.max_operations then
    .error (.OperationError "Too many operations")
  else
    .ok ()

/-- `ImageHandler._validate_url`. -/
def validate_url (req : Request) (s : Settings) : Except PilboxError Unit :=
  match req.args "url" with
  | none => .error (.UrlError "Missing url")
  | some url =>
    if url = "" then .error (.UrlError "Missing url")
    else if pyStartsWith url "http://" || pyStartsWith url "https://" then .ok ()
    else if truthy s.implicit_base_url && pyStartsWith url "/" then .ok ()
    else .error (.UrlError "Unsupported protocol")

/-- `ImageHandler._validate_signature`: checked only when a client key is
configured and truthy, against the raw query string of the request URI. -/
def validate_signature (ext : Externals) (req : Request) (s : Settings) :
    Except PilboxError Unit :=
  match s.client_key with
  | none => .ok ()
  | some key =>
    if key != "" && !(ext.verify_signature key req.query) then
      .error (.SignatureError "Invalid signature")
    else
      .ok ()

/-- `ImageHandler._validate_client`: checked only when a client name is
configured and truthy; an absent `client` argument compares unequal. -/
def validate_client (req : Request) (s : Settings) : Except PilboxError Unit :=
  match s.client_name with
  | none => .ok ()
  | some c =>
    if c != "" && req.args "client" != some c then
      .error (.ClientError "Invalid client")
    else
      .ok ()

/-- `ImageHandler._validate_host`: checked only when the allow-list is
non-empty; a URL whose hostname cannot be extracted is not a member. -/
def validate_host (ext : Externals) (req : Request) (s : Settings) :
    Except PilboxError Unit :=
  if s.allowed_hosts ≠ [] then
    match ext.hostname ((req.args "url").getD "") with
    | some hn => if hn ∈ s.allowed_hosts then .ok () else .error (.HostError "Invalid host")
    | none => .error (.HostError "Invalid host")
  else
    .ok ()

/-- The resize bound checks of `validate_request`: a truthy width or height
argument must not exceed the configured maxima. -/
def resize_bounds_check (ext : Externals) (req : Request) (s : Settings) :
    Except PilboxError Unit :=
  let w := req.args "w"
  let h := req.args "h"
  if truthy w ∧ ext.parseInt (w.getD "") > s.max_resize_width then
    .error (.DimensionsError "Exceeds maximum allowed width")
  else if truthy h ∧ ext.parseInt (h.getD "") > s.max_resize_height then
    .error (.DimensionsError "Exceeds maximum allowed height")
  else
    .ok ()

/-- The watermark checks of `validate_request`, in source order: a TRUTHY
`watermark_img` must carry an http(s) scheme; a PRESENT `watermark_txt` must
be non-empty; at least one of the two arguments must be present. -/
def watermark_check (req : Request) : Except PilboxError Unit :=
  let url := req.args "watermark_img"
  let text := req.args "watermark_txt"
  if truthy url = true ∧ pyStartsWith (url.getD "") "http://" = false ∧
      pyStartsWith (url.getD "") "https://" = false then
    .error (.DimensionsError "Unsupported protocol")
  else if text.isSome = true ∧ text = some "" then
    .error (.DimensionsError "Watermark text cannot be empty")
  else if text = none ∧ url = none then
    .error (.DimensionsError "Watermark requires either watermark_img or watermark_txt")
  else
    .ok ()

/-- The option dictionary handed to `Image.validate_options` at the end of
`validate_request`: the save options, updated with the resize and rotate
options when those operations are requested. -/
def final_options (req : Request) (s : Settings) : List (String × Option String) :=
  let ops := get_operations req s
  let o1 := get_save_options req s
  let o2 := if "resize" ∈ ops then dictUpdate o1 (get_resize_options req s) else o1
  if "rotate" ∈ ops then dictUpdate o2 (get_rotate_options req s) else o2

/-- The per-operation argument validation block of `validate_request`
(everything after the five named checks), in source order: resize, rotate,
region, watermark, then the cross-cutting `Image.validate_options`. -/
def per_operation_checks (ext : Externals) (req : Request) (s : Settings) :
    Except PilboxError Unit := do
  let ops := get_operations req s
  if "resize" ∈ ops then do
    ext.validate_dimensions (req.args "w") (req.args "h")
    resize_bounds_check ext req s
  else pure ()
  if "rotate" ∈ ops then ext.validate_degree (req.args "deg") else pure ()
  if "region" ∈ ops then ext.validate_rectangle (req.args "rect") else pure ()
  if "watermark" ∈ ops then watermark_check req else pure ()
  ext.validate_options (final_options req s)

/-- `ImageHandler.validate_request`: the five named checks in source order,
then the per-operation block; each raise short-circuits the rest. -/
def validate_request (ext : Externals) (req : Request) (s : Settings) :
    Except PilboxError Unit := do
  validate_operation req s
  validate_url req s
  validate_signature ext req s
  validate_client req s
  validate_host ext req s
  per_operation_checks ext req s

/-- The validation checks as a list, in the order `validate_request` runs
them. -/
def validation_checks (ext : Externals) (req : Request) (s : Settings) :
    List (Except PilboxError Unit) :=
  [validate_operation req s, validate_url req s, validate_signature ext req s,
   validate_client req s, validate_host ext req s, per_operation_checks ext req s]

/-- The first failure of a list of checks, or success when all pass. -/
def firstFailure : List (Except PilboxError Unit) → Except PilboxError Unit
  | [] => .ok ()
  | c :: cs =>
    match c with
    | .error e => .error e
    | .ok _ => firstFailure cs

/-- An upstream fetch result: body bytes and response headers. -/
structure FetchResult where
  body : List Nat
  headers : String → Option String

/-- The URL actually fetched by `fetch_image`: joined onto the implicit base
URL when that is configured and the given URL has no hostname. -/
def fetch_url (ext : Externals) (req : Request) (s : Settings) : String :=
  let url := (req.args "url").getD ""
  if truthy s.implicit_base_url && (ext.hostname url).isNone then
    ext.urljoin ((s.implicit_base_url).getD "") url
  else
    url

/-- `ImageHandler.get`: validate, fetch, process, set headers. The second
component counts outbound fetch attempts, so that claims about "no fetch
occurs" are statable. -/
def handleGet (ext : Externals) (req : Request) (s : Settings)
    (fetch : String → Except PilboxError FetchResult) :
    Except PilboxError ((Output × Option String) × (Option String × List (String × String))) × Nat :=
  match validate_request ext req s with
  | .error e => (.error e, 0)
  | .ok _ =>
    match fetch (fetch_url ext req s) with
    | .error e => (.error e, 1)
    | .ok r =>
      let pr := process_response ext req s r.body
      (.ok (pr, set_headers req s r.headers pr.2), 1)

/-- `MAX_WAIT_SECONDS_BEFORE_SHUTDOWN`. -/
def MAX_WAIT_SECONDS_BEFORE_SHUTDOWN : Nat := 5

/-- The decision taken by one invocation of `stop_loop`: schedule the next
tick one second later, or stop the io loop. -/
inductive DrainStep where
  | wait (next : Nat)
  | stop
deriving DecidableEq

/-- One invocation of `stop_loop(deadline)` at time `now`, with time in whole
seconds. `quiescent` tells whether the io loop has no remaining callbacks or
timeouts; the source line reads
`if now < deadline: #and (io_loop._callbacks or io_loop._timeouts)` —
the quiescence conjunct is commented out, so the decision ignores it. -/
def stop_loop (quiescent : Bool) (now deadline : Nat) : DrainStep :=
  if now < deadline then .wait (now + 1) else .stop

/-- The drain step as the design document words it: stop when the deadline
has elapsed OR the loop is quiescent, whichever comes first. Written for
comparison with `stop_loop`, which is translated from the source. -/
def stop_loop_specversion (quiescent : Bool) (now deadline : Nat) : DrainStep :=
  if now < deadline ∧ quiescent = false then .wait (now + 1) else .stop

/-- The full polling run of `stop_loop` from time `now` with `n` seconds
until the deadline: the list of times at which `stop_loop` fires, and the
time at which it stops the io loop. Recursion is on the seconds remaining;
the `quiescent` schedule is carried only to record that it is ignored. -/
def drain_from (quiescent : Nat → Bool) (now : Nat) : Nat → List Nat × Nat
  | 0 => ([now], now)
  | n + 1 =>
    let r := drain_from quiescent (now + 1) n
    (now :: r.1, r.2)

/-- The observable effects of `sig_handler`: `server.stop()` runs at once
(no further connections accepted), then `stop_loop` polls once per second
until five seconds have passed, then stops the io loop. -/
structure ShutdownRun where
  serverStopTime : Nat
  pollTimes : List Nat
  loopStopTime : Nat
deriving DecidableEq

/-- `sig_handler` at signal time `t`. -/
def sig_handler (quiescent : Nat → Bool) (t : Nat) : ShutdownRun :=
  let deadline := t + MAX_WAIT_SECONDS_BEFORE_SHUTDOWN
  let r := drain_from quiescent t (deadline - t)
  ⟨t, r.1, r.2⟩

/-! Concrete fixtures used by witnesses and counterexamples. -/

/-- A request whose arguments come from an association list (first match
wins), with an empty query string. -/
def mkRequest (l : List (String × String)) : Request :=
  ⟨fun k => (l.find? (fun p => p.1 == k)).map (fun p => p.2), ""⟩

/-- Benign external collaborators for concrete runs: every external
validation passes, signature verification accepts, and the codec reports a
jpeg output. -/
def extDefault : Externals :=
  ⟨fun _ _ => true,
   fun _ _ => .ok (),
   fun _ => .ok (),
   fun _ => .ok (),
   fun _ => .ok (),
   fun _ => 0,
   fun u => if pyStartsWith u "http://" || pyStartsWith u "https://" then
              some "example.com"
            else none,
   fun b u => b ++ u,
   fun _ _ => some "jpeg"⟩

/-- Settings as assembled by `PilboxApplication` with nothing configured:
every operation allowed, the documented numeric defaults, no per-option
defaults. -/
def settingsDefault : Settings :=
  ⟨none, none, [], OPERATIONS, 10, 15000, 15000, none, false, fun _ => none⟩

/-- Settings with a configured default of `"crop"` for the `mode` option. -/
def settingsModeCrop : Settings :=
  ⟨none, none, [], OPERATIONS, 10, 15000, 15000, none, false,
   fun k => if k == "mode" then some "crop" else none⟩

/-- Settings with `max_operations = 2`. -/
def settingsMaxTwo : Settings :=
  ⟨none, none, [], OPERATIONS, 2, 15000, 15000, none, false, fun _ => none⟩

/-- Settings with the content-type-from-image flag set. -/
def settingsCtImage : Settings :=
  ⟨none, none, [], OPERATIONS, 10, 15000, 15000, none, true, fun _ => none⟩

/-- A resize-then-rotate request. -/
def reqResizeRotate : Request :=
  mkRequest [("op", "resize,rotate"), ("w", "10"), ("h", "20"), ("deg", "90")]

/-! Claim C1: option resolution. -/

/-- C1 counterexample: with `mode` supplied as the empty string and a
configured default of `"crop"`, `_get_options` keeps the empty string,
while the claim's merge rule (a non-empty request value wins, otherwise the
default) would resolve `mode` to `"crop"`. -/
theorem c1_counterexample :
    (mkRequest [("mode", "")]).args "mode" = some "" ∧
    List.lookup "mode"
        (get_resize_options (mkRequest [("mode", "")]) settingsModeCrop) =
      some (some "") ∧
    List.lookup "mode"
        (get_options_specversion (mkRequest [("mode", "")]) settingsModeCrop
          resize_option_pairs) =
      some (some "crop") ∧
    get_resize_options (mkRequest [("mode", "")]) settingsModeCrop ≠
      get_options_specversion (mkRequest [("mode", "")]) settingsModeCrop
        resize_option_pairs := by
  decide

/-- C1 (amended): for every option field of every operation family, the
resolved value is the request-supplied value whenever the argument is
present — even when it is the empty string — and otherwise the matching
`Settings` default; when that is also absent the field resolves to `None`. -/
theorem c1_theorem (req : Request) (s : Settings) (fam : OptionFamily)
    (k a : String) (hmem : (k, a) ∈ option_pairs fam) :
    List.lookup k (family_options fam req s) =
      some (match req.args a with
            | some v => some v
            | none => s.opts k) := by
  cases fam <;>
    · fin_cases hmem <;>
        simp [family_options, get_resize_options, get_rotate_options,
          get_watermark_options, get_save_options, get_options,
          resize_option_pairs, rotate_option_pairs, watermark_option_pairs,
          save_option_pairs, List.lookup]

/-- C1 witness: the amended rule evaluated on the counterexample's input. -/
theorem c1_witness :
    ("mode", "mode") ∈ option_pairs OptionFamily.resize ∧
    List.lookup "mode"
        (family_options OptionFamily.resize (mkRequest [("mode", "")])
          settingsModeCrop) =
      some (some "") := by
  refine ⟨by decide, ?_⟩
  exact (c1_theorem (mkRequest [("mode", "")]) settingsModeCrop
    OptionFamily.resize "mode" "mode" (by decide)).trans (by decide)

/-! Claim C2: the noop short circuit. -/

/-- C2: when `noop` occurs anywhere in the operation list, the pipeline
returns the fetched bytes unchanged with no declared output format, and
`_set_headers` given no declared format forwards the upstream content
type. -/
theorem c2_theorem (ext : Externals) (req : Request) (s : Settings)
    (buffer : List Nat) (hnoop : "noop" ∈ get_operations req s) :
    process_response ext req s buffer = (.raw buffer, none) ∧
    ∀ headers : String → Option String,
      (set_headers req s headers none).1 = headers "Content-Type" := by
  constructor
  · simp [process_response, hnoop]
  · intro headers
    simp [set_headers, truthy]

/-- C2 witness: a concrete `op=noop` request forwards the bytes and the
upstream content type. -/
theorem c2_witness :
    "noop" ∈ get_operations (mkRequest [("op", "noop")]) settingsDefault ∧
    process_response extDefault (mkRequest [("op", "noop")]) settingsDefault
      [1, 2, 3] = (.raw [1, 2, 3], none) ∧
    (set_headers (mkRequest [("op", "noop")]) settingsDefault
      (fun k => if k == "Content-Type" then some "image/png" else none)
      none).1 = some "image/png" := by
  refine ⟨by decide, ?_, ?_⟩
  · exact (c2_theorem extDefault (mkRequest [("op", "noop")]) settingsDefault
      [1, 2, 3] (by decide)).1
  · exact ((c2_theorem extDefault (mkRequest [("op", "noop")]) settingsDefault
      [1, 2, 3] (by decide)).2
      (fun k => if k == "Content-Type" then some "image/png" else none)).trans
      (by decide)

/-! Claim C3: validation order, short-circuiting, and no fetch on failure. -/

/-- C3: `validate_request` equals the first failure of its six checks taken
in the fixed source order (operation allow-list and count, URL shape,
signature, client identity, host allow-list, per-operation argument checks),
and any validation failure is returned with no outbound fetch attempted. -/
theorem c3_theorem (ext : Externals) (req : Request) (s : Settings)
    (fetch : String → Except PilboxError FetchResult) :
    validate_request ext req s = firstFailure (validation_checks ext req s) ∧
    ∀ e, validate_request ext req s = .error e →
      handleGet ext req s fetch = (.error e, 0) := by
  constructor
  · simp only [validate_request, validation_checks]
    cases validate_operation req s with
    | error e => rfl
    | ok u =>
      cases validate_url req s with
      | error e => rfl
      | ok u =>
        cases validate_signature ext req s with
        | error e => rfl
        | ok u =>
          cases validate_client req s with
          | error e => rfl
          | ok u =>
            cases validate_host ext req s with
            | error e => rfl
            | ok u =>
              cases per_operation_checks ext req s with
              | error e => rfl
              | ok u => rfl
  · intro e he
    unfold handleGet
    rw [he]

/-- C3 witness: a request with a disallowed operation fails with the first
check's error and performs no fetch. -/
theorem c3_witness :
    validate_request extDefault (mkRequest [("op", "foo")]) settingsDefault =
      .error (.OperationError "Unsupported operation") ∧
    handleGet extDefault (mkRequest [("op", "foo")]) settingsDefault
      (fun _ => .error .FetchError) =
      (.error (.OperationError "Unsupported operation"), 0) := by
  refine ⟨by decide, ?_⟩
  exact (c3_theorem extDefault (mkRequest [("op", "foo")]) settingsDefault
    (fun _ => .error .FetchError)).2 _ (by decide)

/-! Claim C4: disallowed operations fail early with no fetch. -/

/-- C4: when the parsed operation set is not a subset of the allowed
operations, the request fails with `OperationError` and the fetch step is
never reached. -/
theorem c4_theorem (ext : Externals) (req : Request) (s : Settings)
    (fetch : String → Except PilboxError FetchResult)
    (hbad : ¬ ∀ o ∈ get_operations req s, o ∈ s.allowed_operations) :
    validate_request ext req s =
      .error (.OperationError "Unsupported operation") ∧
    handleGet ext req s fetch =
      (.error (.OperationError "Unsupported operation"), 0) := by
  have hded : ¬ ∀ o ∈ (get_operations req s).dedup, o ∈ s.allowed_operations := by
    intro h
    exact hbad (fun o ho => h o (List.mem_dedup.mpr ho))
  have hop : validate_operation req s =
      .error (.OperationError "Unsupported operation") := by
    simp only [validate_operation]
    rw [if_pos hded]
  have hval : validate_request ext req s =
      .error (.OperationError "Unsupported operation") := by
    simp only [validate_request, hop]
    rfl
  refine ⟨hval, ?_⟩
  unfold handleGet
  rw [hval]

/-- C4 witness: a request naming an unknown operation is rejected with no
fetch. -/
theorem c4_witness :
    (¬ ∀ o ∈ get_operations (mkRequest [("op", "resize,magick")]) settingsDefault,
        o ∈ settingsDefault.allowed_operations) ∧
    handleGet extDefault (mkRequest [("op", "resize,magick")]) settingsDefault
      (fun _ => .error .FetchError) =
      (.error (.OperationError "Unsupported operation"), 0) := by
  refine ⟨by decide, ?_⟩
  exact (c4_theorem extDefault (mkRequest [("op", "resize,magick")])
    settingsDefault (fun _ => .error .FetchError) (by decide)).2

/-! Claims C5 and C10: watermark argument validation. -/

/-- C5 counterexample: `watermark_img` supplied as the empty string is a
given value with no http(s) scheme, yet the watermark validation passes —
the source guards the scheme check by truthiness, not by presence. -/
theorem c5_counterexample :
    (mkRequest [("watermark_img", "")]).args "watermark_img" = some "" ∧
    pyStartsWith "" "http://" = false ∧
    pyStartsWith "" "https://" = false ∧
    watermark_check (mkRequest [("watermark_img", "")]) = .ok () := by
  decide

/-- C5 (amended): the watermark validation passes exactly when some
watermark argument is present, a NON-EMPTY `watermark_img` carries an
http(s) scheme, and a present `watermark_txt` is non-empty; and every
failure it produces is a `DimensionsError`. -/
theorem c5_theorem (req : Request) :
    (watermark_check req = .ok () ↔
      ((req.args "watermark_img" ≠ none ∨ req.args "watermark_txt" ≠ none) ∧
       (∀ v, req.args "watermark_img" = some v → v ≠ "" →
         (pyStartsWith v "http://" = true ∨ pyStartsWith v "https://" = true)) ∧
       (∀ t, req.args "watermark_txt" = some t → t ≠ ""))) ∧
    ∀ e, watermark_check req = .error e → ∃ m, e = .DimensionsError m := by
  constructor
  · rcases hu : req.args "watermark_img" with _ | v <;>
      rcases ht : req.args "watermark_txt" with _ | t
    · simp [watermark_check, hu, ht, truthy]
    · by_cases h0 : t = ""
      · subst h0
        simp [watermark_check, hu, ht, truthy]
      · simp [watermark_check, hu, ht, truthy, h0]
    · by_cases h0 : v = ""
      · subst h0
        simp [watermark_check, hu, ht, truthy]
      · by_cases h1 : pyStartsWith v "http://" = true
        · simp [watermark_check, hu, ht, truthy, h0, h1]
        · by_cases h2 : pyStartsWith v "https://" = true
          · simp [watermark_check, hu, ht, truthy, h0, h1, h2]
          · simp [watermark_check, hu, ht, truthy, h0, h1, h2]
    · by_cases h0 : v = ""
      · subst h0
        by_cases h3 : t = ""
        · subst h3
          simp [watermark_check, hu, ht, truthy]
        · simp [watermark_check, hu, ht, truthy, h3]
      · by_cases h3 : t = ""
        · subst h3
          by_cases h1 : pyStartsWith v "http://" = true
          · simp [watermark_check, hu, ht, truthy, h0, h1]
          · by_cases h2 : pyStartsWith v "https://" = true
            · simp [watermark_check, hu, ht, truthy, h0, h1, h2]
            · simp [watermark_check, hu, ht, truthy, h0, h1, h2]
        · by_cases h1 : pyStartsWith v "http://" = true
          · simp [watermark_check, hu, ht, truthy, h0, h1, h3]
          · by_cases h2 : pyStartsWith v "https://" = true
            · simp [watermark_check, hu, ht, truthy, h0, h1, h2, h3]
            · simp [watermark_check, hu, ht, truthy, h0, h1, h2, h3]
  · intro e he
    simp only [watermark_check] at he
    split at he
    · cases he
      exact ⟨_, rfl⟩
    · split at he
      · cases he
        exact ⟨_, rfl⟩
      · split at he
        · cases he
          exact ⟨_, rfl⟩
        · cases he

/-- C5 witness: a request with a well-formed https watermark image passes
the amended conditions and the check. -/
theorem c5_witness :
    watermark_check (mkRequest [("watermark_img", "https://a/b.png")]) = .ok () := by
  refine ((c5_theorem (mkRequest [("watermark_img", "https://a/b.png")])).1).mpr
    ⟨Or.inl (by decide), ?_, ?_⟩
  · intro v hv hne
    rw [show (mkRequest [("watermark_img", "https://a/b.png")]).args
        "watermark_img" = some "https://a/b.png" from by decide] at hv
    cases hv
    exact Or.inr (by decide)
  · intro t ht
    rw [show (mkRequest [("watermark_img", "https://a/b.png")]).args
        "watermark_txt" = none from by decide] at ht
    exact Option.noConfusion ht

/-- C10 counterexample: with `watermark_txt` empty and a non-empty
`watermark_img` lacking an http(s) scheme, the failure is the scheme error,
not the empty-text error — the scheme check runs first. -/
theorem c10_counterexample :
    (mkRequest [("watermark_img", "ftp://x"), ("watermark_txt", "")]).args
        "watermark_txt" = some "" ∧
    watermark_check
        (mkRequest [("watermark_img", "ftp://x"), ("watermark_txt", "")]) =
      .error (.DimensionsError "Unsupported protocol") := by
  decide

/-- C10 (amended): the empty-text check takes precedence over the presence
check but not over the scheme check: an empty `watermark_txt` fails with the
empty-text error whenever the supplied `watermark_img`, if any, is empty or
carries an http(s) scheme; and `watermark_img` supplied as the empty string
with `watermark_txt` absent passes the watermark validation. -/
theorem c10_theorem (req : Request) :
    (req.args "watermark_txt" = some "" →
      (∀ v, req.args "watermark_img" = some v → v ≠ "" →
        (pyStartsWith v "http://" = true ∨ pyStartsWith v "https://" = true)) →
      watermark_check req =
        .error (.DimensionsError "Watermark text cannot be empty")) ∧
    (req.args "watermark_img" = some "" → req.args "watermark_txt" = none →
      watermark_check req = .ok ()) := by
  constructor
  · intro ht hok
    have hcond1 : ¬ (truthy (req.args "watermark_img") = true ∧
        pyStartsWith ((req.args "watermark_img").getD "") "http://" = false ∧
        pyStartsWith ((req.args "watermark_img").getD "") "https://" = false) := by
      rcases hu : req.args "watermark_img" with _ | v
      · simp [truthy]
      · by_cases h0 : v = ""
        · subst h0
          simp [truthy]
        · rcases hok v hu h0 with h | h <;> simp [truthy, h]
    simp [watermark_check, hcond1, ht]
  · intro hu ht
    simp [watermark_check, hu, ht, truthy]

/-- C10 witness: an empty text with a well-formed image URL fails for the
empty text, and an empty image URL with no text passes. -/
theorem c10_witness :
    watermark_check
        (mkRequest [("watermark_img", "https://a/b.png"), ("watermark_txt", "")]) =
      .error (.DimensionsError "Watermark text cannot be empty") ∧
    watermark_check (mkRequest [("watermark_img", ""), ("op", "watermark")]) =
      .ok () := by
  constructor
  · refine (c10_theorem _).1 (by decide) ?_
    intro v hv hne
    rw [show (mkRequest [("watermark_img", "https://a/b.png"),
        ("watermark_txt", "")]).args "watermark_img" =
        some "https://a/b.png" from by decide] at hv
    cases hv
    exact Or.inr (by decide)
  · exact (c10_theorem _).2 (by decide) (by decide)

/-! Claim C6: the operation count check. -/

/-- C6 counterexample: three operations are listed — more than
`max_operations = 2` — but the listed operations repeat, the parsed
operations collapse into a set before the count check, and the check
passes. -/
theorem c6_counterexample :
    (get_operations (mkRequest [("op", "resize,resize,resize")])
      settingsMaxTwo).length = 3 ∧
    settingsMaxTwo.max_operations = 2 ∧
    validate_operation (mkRequest [("op", "resize,resize,resize")])
      settingsMaxTwo = .ok () := by
  decide

/-- C6 (amended): the count that `_validate_operation` bounds is the number
of DISTINCT parsed operations — duplicates collapse into a set for the
count check just as for the allow-list check; when the allow-list check
passes, the check fails with `OperationError` exactly when the distinct
count exceeds `max_operations`. -/
theorem c6_theorem (req : Request) (s : Settings)
    (hallowed : ∀ o ∈ get_operations req s, o ∈ s.allowed_operations) :
    validate_operation req s =
      if (get_operations req s).dedup.length > s.max_operations then
        .error (.OperationError "Too many operations")
      else
        .ok () := by
  have h : ∀ o ∈ (get_operations req s).dedup, o ∈ s.allowed_operations :=
    fun o ho => hallowed o (List.mem_dedup.mp ho)
  simp only [validate_operation]
  rw [if_neg (not_not_intro h)]

/-- C6 witness: the triply repeated operation list is accepted because its
distinct count is one. -/
theorem c6_witness :
    validate_operation (mkRequest [("op", "resize,resize,resize")])
      settingsMaxTwo = .ok () := by
  exact (c6_theorem (mkRequest [("op", "resize,resize,resize")]) settingsMaxTwo
    (by decide)).trans (by decide)

/-! Claim C7: the transform pipeline applies operations in request order. -/

/-- The `for operation in ops` loop leaves the decoded source untouched and
appends one recorded invocation per operation that matches the `elif`
chain, in list order. -/
theorem runOps_applied (req : Request) (s : Settings) (ops : List String)
    (img : ImageState) :
    runOps req s ops img =
      ⟨img.source, img.applied ++ ops.filterMap (fun o =>
        (transformCall req s o).map (fun c => (o, c)))⟩ := by
  induction ops generalizing img with
  | nil => simp [runOps]
  | cons op rest ih =>
    rw [runOps, ih]
    unfold applyOperation
    cases h : transformCall req s op <;>
      simp [h, List.filterMap_cons]

/-- C7: for an operation list of known operations without `noop`, the
pipeline decodes the fetched buffer once, invokes the transform of each
listed operation in exactly the request order — every occurrence, no
reordering — with its resolved options, and encodes once with the resolved
save options; the declared format is the codec's report on the resulting
image. -/
theorem c7_theorem (ext : Externals) (req : Request) (s : Settings)
    (buffer : List Nat) (hnoop : "noop" ∉ get_operations req s)
    (hknown : ∀ o ∈ get_operations req s, o ∈ OPERATIONS) :
    process_response ext req s buffer =
      (.encoded
        ⟨buffer, (get_operations req s).map
          (fun o => (o, (transformCall req s o).getD []))⟩
        (get_save_options req s),
       ext.img_format
         ⟨buffer, (get_operations req s).map
           (fun o => (o, (transformCall req s o).getD []))⟩
         (get_save_options req s)) := by
  have hsome : ∀ o ∈ get_operations req s, (transformCall req s o).isSome := by
    intro o ho
    have h2 := hknown o ho
    have h3 : o ≠ "noop" := fun h => hnoop (h ▸ ho)
    fin_cases h2 <;> simp_all [transformCall, OPERATIONS]
  have hmap : ∀ l : List String, (∀ o ∈ l, (transformCall req s o).isSome) →
      l.filterMap (fun o => (transformCall req s o).map (fun c => (o, c))) =
      l.map (fun o => (o, (transformCall req s o).getD [])) := by
    intro l
    induction l with
    | nil => intro _; rfl
    | cons a as ih =>
      intro hl
      have ha := hl a (List.mem_cons_self a as)
      rcases ho : transformCall req s a with _ | c
      · rw [ho] at ha
        simp at ha
      · simp [List.filterMap_cons, ho,
          ih (fun o hm => hl o (List.mem_cons_of_mem a hm))]
  simp [process_response, hnoop, runOps_applied, hmap _ hsome]

/-- C7 witness: `op=resize,rotate` applies resize first, then rotate, each
with its resolved options, then saves. -/
theorem c7_witness :
    process_response extDefault reqResizeRotate settingsDefault [9] =
      (.encoded
        ⟨[9],
         [("resize",
           [("w", some "10"), ("h", some "20"), ("mode", none),
            ("filter", none), ("position", none), ("background", none),
            ("retain", none)]),
          ("rotate", [("deg", some "90"), ("expand", none)])]⟩
        [("format", none), ("optimize", none), ("quality", none),
         ("progressive", none), ("background", none), ("preserve_exif", none),
         ("watermark_pos", none), ("watermark_txt_size", none),
         ("watermark_txt_color", none), ("watermark_img_ratio", none)],
       some "jpeg") := by
  exact (c7_theorem extDefault reqResizeRotate settingsDefault [9]
    (by decide) (by decide)).trans (by decide)

/-! Claim C8: response content type and forwarded headers. -/

/-- C8: with a declared (non-empty) output format, the content type is the
MIME table entry for the lowercased format when the `fmt` argument is
supplied non-empty, a default format is configured, or the
content-type-from-image flag is set; otherwise the upstream content type is
forwarded; and the caching headers are forwarded exactly when present and
non-empty upstream. -/
theorem c8_theorem (req : Request) (s : Settings)
    (headers : String → Option String) (f : String) (hf : f ≠ "") :
    ((truthy (req.args "fmt") || truthy (s.opts "format") ||
        s.content_type_from_image) = true →
      (set_headers req s headers (some f)).1 = FORMAT_TO_MIME (pyToLower f)) ∧
    ((truthy (req.args "fmt") || truthy (s.opts "format") ||
        s.content_type_from_image) = false →
      (set_headers req s headers (some f)).1 = headers "Content-Type") ∧
    ∀ k v, (k, v) ∈ (set_headers req s headers (some f)).2 ↔
      (k ∈ FORWARD_HEADERS ∧ headers k = some v ∧ v ≠ "") := by
  refine ⟨?_, ?_, ?_⟩
  · intro hcond
    have h1 : truthy (some f) = true := by simp [truthy, hf]
    simp [set_headers, h1, hcond]
  · intro hcond
    simp [set_headers, hcond]
  · intro k v
    simp only [set_headers, List.mem_filterMap]
    constructor
    · rintro ⟨a, ha, hg⟩
      rcases hh : headers a with _ | w
      · rw [hh] at hg
        simp at hg
      · rw [hh] at hg
        by_cases hw : w = ""
        · simp [hw] at hg
        · simp only [hw, if_false, Option.some.injEq, Prod.mk.injEq] at hg
          obtain ⟨rfl, rfl⟩ := hg
          exact ⟨ha, hh, hw⟩
    · rintro ⟨hk, hv, hne⟩
      exact ⟨k, hk, by simp [hv, hne]⟩

/-- C8 witness: the content-type-from-image flag routes the declared PNG
format through the MIME table, and a non-empty Cache-Control header is
forwarded. -/
theorem c8_witness :
    (set_headers (mkRequest []) settingsCtImage
      (fun k => if k == "Cache-Control" then some "max-age=60" else none)
      (some "PNG")).1 = some "image/png" ∧
    ("Cache-Control", "max-age=60") ∈
      (set_headers (mkRequest []) settingsCtImage
        (fun k => if k == "Cache-Control" then some "max-age=60" else none)
        (some "PNG")).2 := by
  constructor
  · exact ((c8_theorem (mkRequest []) settingsCtImage
      (fun k => if k == "Cache-Control" then some "max-age=60" else none)
      "PNG" (by decide)).1 (by decide)).trans (by decide)
  · exact ((c8_theorem (mkRequest []) settingsCtImage
      (fun k => if k == "Cache-Control" then some "max-age=60" else none)
      "PNG" (by decide)).2.2 "Cache-Control" "max-age=60").mpr (by decide)

/-! Claim C9: shutdown drain behaviour. -/

/-- C9 counterexample: one tick into the drain with the io loop already
quiescent, the claim's step (stop on deadline OR quiescence) stops, but the
source's step waits — the quiescence conjunct is commented out — and the
full drain with a permanently quiescent loop still runs to the 5-second
deadline. -/
theorem c9_counterexample :
    stop_loop true 0 5 = .wait 1 ∧
    stop_loop_specversion true 0 5 = .stop ∧
    (sig_handler (fun _ => true) 0).loopStopTime = 5 := by
  decide

/-- The drain loop started at `x` with `n` seconds to the deadline polls at
each of the `n + 1` whole seconds and stops at second `x + n`. -/
theorem drain_from_eq (q : Nat → Bool) : ∀ (n x : Nat),
    drain_from q x n = ((List.range (n + 1)).map (fun i => x + i), x + n) := by
  intro n
  induction n with
  | zero =>
    intro x
    rw [show List.range (0 + 1) = [0] from by decide]
    simp [drain_from]
  | succ n ih =>
    intro x
    have hfun : ((fun i => x + i) ∘ Nat.succ) = fun i => x + 1 + i := by
      funext i
      simp only [Function.comp_apply]
      omega
    have hlist : (List.range (n + 1 + 1)).map (fun i => x + i) =
        x :: (List.range (n + 1)).map (fun i => x + 1 + i) := by
      rw [List.range_succ_eq_map]
      simp only [List.map_cons, List.map_map, hfun, Nat.add_zero]
    simp only [drain_from, ih (x + 1), hlist]
    simp only [Prod.mk.injEq]
    exact ⟨trivial, by omega⟩

/-- C9 (amended): after a termination signal, the server stops accepting
connections immediately and the drain loop polls once per second, stopping
the io loop exactly when the 5-second deadline elapses — the quiescence
early exit is disabled in the source, so every pre-deadline tick waits
regardless of in-flight work, and the loop never stops early. -/
theorem c9_theorem (quiescent : Nat → Bool) (t : Nat) :
    sig_handler quiescent t =
      ⟨t, [t, t + 1, t + 2, t + 3, t + 4, t + 5], t + 5⟩ ∧
    ∀ (q : Bool) (now deadline : Nat), now < deadline →
      stop_loop q now deadline = .wait (now + 1) := by
  constructor
  · simp only [sig_handler, MAX_WAIT_SECONDS_BEFORE_SHUTDOWN]
    rw [show t + 5 - t = 5 from by omega]
    rw [drain_from_eq quiescent 5 t]
    rw [show List.range 6 = [0, 1, 2, 3, 4, 5] from by decide]
    simp
  · intro q now deadline hlt
    simp [stop_loop, hlt]

/-- C9 witness: the amended behaviour at signal time 7, and a pre-deadline
tick that waits even though the loop is quiescent. -/
theorem c9_witness :
    sig_handler (fun _ => false) 7 = ⟨7, [7, 8, 9, 10, 11, 12], 12⟩ ∧
    stop_loop true 2 9 = .wait 3 := by
  constructor
  · exact ((c9_theorem (fun _ => false) 7).1).trans (by decide)
  · exact (c9_theorem (fun _ => false) 7).2 true 2 9 (by decide)
